import Mathlib

/-!
Shallow embedding of the Reddit sentiment-analysis frontend:
the job status model and the pure functions of the pages
(ProcessingPage, JobsPage, BrowsePage/ConfigurePage), the TagInput
component, the API client argument construction, and the utility
functions (sentiment renderers, truncate), together with theorems
about them.
-/

/-- The closed set of job statuses of the `Job` interface in the API
client: `pending | running | paused | completed | failed`. -/
inductive Status where
  | pending
  | running
  | paused
  | completed
  | failed
deriving DecidableEq, Repr

/-- ProcessingPage and JobsPage progress percentage:
`progress.total > 0 ? Math.round((progress.current / progress.total) * 100) : 0`.
`Math.round` on a nonnegative rational is `round` (half rounds up). -/
def progressPercent (current total : ℕ) : ℤ :=
  if 0 < total then round ((current : ℚ) / (total : ℚ) * 100) else 0

/-- C1: for every progress snapshot with `current ≤ total`, the displayed
progress percentage is an integer between 0 and 100, and when `total = 0`
the guarded branch returns 0 without dividing. -/
theorem C1_progressPercent_bounds (current total : ℕ) (h : current ≤ total) :
    0 ≤ progressPercent current total ∧ progressPercent current total ≤ 100 ∧
      (total = 0 → progressPercent current total = 0) := by
  unfold progressPercent
  by_cases ht : 0 < total
  · rw [if_pos ht]
    have htQ : (0 : ℚ) < total := by exact_mod_cast ht
    have hx0 : (0 : ℚ) ≤ (current : ℚ) / total * 100 := by positivity
    have hx1 : (current : ℚ) / total * 100 ≤ 100 := by
      have h1 : (current : ℚ) / total ≤ 1 :=
        (div_le_one htQ).mpr (by exact_mod_cast h)
      nlinarith
    refine ⟨?_, ?_, ?_⟩
    · rw [round_eq]
      exact Int.le_floor.mpr (by push_cast; linarith)
    · rw [round_eq]
      have hfl : (⌊(current : ℚ) / total * 100 + 1 / 2⌋ : ℤ) < 101 :=
        Int.floor_lt.mpr (by push_cast; linarith)
      omega
    · intro h0
      omega
  · rw [if_neg ht]
    exact ⟨le_refl 0, by norm_num, fun _ => rfl⟩

/-- Witness for C1 at the concrete snapshot `current = 3`, `total = 4`. -/
theorem C1_progressPercent_bounds_witness :
    0 ≤ progressPercent 3 4 ∧ progressPercent 3 4 ≤ 100 ∧
      (4 = 0 → progressPercent 3 4 = 0) :=
  C1_progressPercent_bounds 3 4 (by decide)

/-- ConfigurePage validity:
`const isValid = subreddits.length > 0 && keywords.length > 0`. -/
def isValid (subreddits keywords : List String) : Bool :=
  subreddits.length > 0 && keywords.length > 0

/-- The Start Analysis submit button is rendered with `disabled={!isValid}`,
so it is enabled exactly when `isValid` holds. -/
def startAnalysisEnabled (subreddits keywords : List String) : Bool :=
  !(!(isValid subreddits keywords))

/-- C2: the submit action is enabled iff the community set and the keyword
set are both non-empty, so a job creation request is never issued with an
empty community set or an empty keyword set. -/
theorem C2_submit_requires_nonempty (subreddits keywords : List String) :
    startAnalysisEnabled subreddits keywords = true ↔
      0 < subreddits.length ∧ 0 < keywords.length := by
  simp [startAnalysisEnabled, isValid]

/-- JobsPage grouping of the jobs list:
`jobs.filter` keeping the jobs whose status is running or pending. -/
def runningJobsFilter (s : Status) : Bool :=
  s == .running || s == .pending

/-- JobsPage grouping: `jobs.filter` keeping the paused jobs. -/
def pausedJobsFilter (s : Status) : Bool :=
  s == .paused

/-- JobsPage grouping: `jobs.filter` keeping the completed jobs. -/
def completedJobsFilter (s : Status) : Bool :=
  s == .completed

/-- JobsPage grouping: `jobs.filter` keeping the failed jobs. -/
def failedJobsFilter (s : Status) : Bool :=
  s == .failed

/-- JobsPage passes an `onPause` handler to JobCard only in the
running/pending section of the list. -/
def jobsPagePassesOnPause (s : Status) : Bool :=
  runningJobsFilter s

/-- JobsPage passes an `onResume` handler to JobCard only in the
paused section of the list. -/
def jobsPagePassesOnResume (s : Status) : Bool :=
  pausedJobsFilter s

/-- JobCard renders the pause button under
`onPause && (isRunning || isPending)`. -/
def jobCardPauseShown (onPause : Bool) (s : Status) : Bool :=
  onPause && (s == .running || s == .pending)

/-- JobCard renders the resume button under `onResume && isPaused`. -/
def jobCardResumeShown (onResume : Bool) (s : Status) : Bool :=
  onResume && s == .paused

/-- Composition: whether the jobs list shows a pause button for a job of a
given status. -/
def jobsListPauseShown (s : Status) : Bool :=
  jobCardPauseShown (jobsPagePassesOnPause s) s

/-- Composition: whether the jobs list shows a resume button for a job of a
given status. -/
def jobsListResumeShown (s : Status) : Bool :=
  jobCardResumeShown (jobsPagePassesOnResume s) s

/-- C3: in the rendered jobs list the pause button is present iff the
status is running or pending, the resume button is present iff the status
is paused, and neither control is offered for the terminal statuses. -/
theorem C3_pause_resume_controls (s : Status) :
    (jobsListPauseShown s = true ↔ s = .running ∨ s = .pending) ∧
      (jobsListResumeShown s = true ↔ s = .paused) ∧
      (s = .completed ∨ s = .failed →
        jobsListPauseShown s = false ∧ jobsListResumeShown s = false) := by
  cases s <;> simp [jobsListPauseShown, jobsListResumeShown, jobCardPauseShown,
    jobCardResumeShown, jobsPagePassesOnPause, jobsPagePassesOnResume,
    runningJobsFilter, pausedJobsFilter]

/-- C4: the status field admits exactly the five enumerated values, and the
four jobs-list groups (running-or-pending, paused, completed, failed)
classify every status into exactly one group. -/
theorem C4_status_groups_partition (s : Status) :
    (s = .pending ∨ s = .running ∨ s = .paused ∨ s = .completed ∨ s = .failed) ∧
      ((runningJobsFilter s = true ∧ pausedJobsFilter s = false ∧
          completedJobsFilter s = false ∧ failedJobsFilter s = false) ∨
        (runningJobsFilter s = false ∧ pausedJobsFilter s = true ∧
          completedJobsFilter s = false ∧ failedJobsFilter s = false) ∨
        (runningJobsFilter s = false ∧ pausedJobsFilter s = false ∧
          completedJobsFilter s = true ∧ failedJobsFilter s = false) ∨
        (runningJobsFilter s = false ∧ pausedJobsFilter s = false ∧
          completedJobsFilter s = false ∧ failedJobsFilter s = true)) := by
  cases s <;> simp [runningJobsFilter, pausedJobsFilter, completedJobsFilter,
    failedJobsFilter]

/-- The value the ProcessingPage `refetchInterval` callback returns:
either `false` (stop polling) or a number of milliseconds. -/
inductive RefetchInterval where
  | stop
  | everyMs (ms : ℕ)
deriving DecidableEq, Repr

/-- ProcessingPage polling callback: returns false (stop) when the fetched
status is completed or failed, and otherwise returns 2000 milliseconds.
`data` is absent before the first successful fetch. -/
def processingRefetchInterval (data : Option Status) : RefetchInterval :=
  if data == some .completed || data == some .failed then .stop
  else .everyMs 2000

/-- C7: polling stops exactly at terminal statuses: the callback returns
stop iff the observed status is completed or failed, and returns a 2000 ms
interval for pending, running and paused. -/
theorem C7_polling_stops_at_terminal (s : Status) :
    (processingRefetchInterval (some s) = .stop ↔
      s = .completed ∨ s = .failed) ∧
      (s ≠ .completed → s ≠ .failed →
        processingRefetchInterval (some s) = .everyMs 2000) := by
  cases s <;> simp [processingRefetchInterval]

/-- Witness for C2 at a concrete one-element configuration. -/
theorem C2_submit_requires_nonempty_witness :
    startAnalysisEnabled ["landscaping"] ["bobcat"] = true :=
  (C2_submit_requires_nonempty ["landscaping"] ["bobcat"]).mpr
    (by constructor <;> decide)

/-- Witness for C3 at the terminal status `completed`. -/
theorem C3_pause_resume_controls_witness :
    jobsListPauseShown .completed = false ∧
      jobsListResumeShown .completed = false :=
  (C3_pause_resume_controls .completed).2.2 (Or.inl rfl)

/-- Witness for C7 at the non-terminal status `paused`. -/
theorem C7_polling_stops_at_terminal_witness :
    processingRefetchInterval (some .paused) = .everyMs 2000 :=
  (C7_polling_stops_at_terminal .paused).2 (by decide) (by decide)

/-- Utility `getSentimentColor`: a switch on the sentiment string with a
shared default `text-gray-400`; `null` falls through to the default. -/
def getSentimentColor (sentiment : Option String) : String :=
  match sentiment with
  | none => "text-gray-400"
  | some s =>
    if s = "positive" then "text-green-400"
    else if s = "slightly_positive" then "text-green-300"
    else if s = "neutral" then "text-gray-400"
    else if s = "slightly_negative" then "text-orange-300"
    else if s = "negative" then "text-red-400"
    else "text-gray-400"

/-- Utility `getSentimentBgColor`: a switch with default `bg-gray-400`. -/
def getSentimentBgColor (sentiment : Option String) : String :=
  match sentiment with
  | none => "bg-gray-400"
  | some s =>
    if s = "positive" then "bg-green-500"
    else if s = "slightly_positive" then "bg-green-400"
    else if s = "neutral" then "bg-gray-400"
    else if s = "slightly_negative" then "bg-orange-400"
    else if s = "negative" then "bg-red-500"
    else "bg-gray-400"

/-- Utility `getSentimentEmoji`: a switch with default `❓`. -/
def getSentimentEmoji (sentiment : Option String) : String :=
  match sentiment with
  | none => "❓"
  | some s =>
    if s = "positive" then "😄"
    else if s = "slightly_positive" then "🙂"
    else if s = "neutral" then "😐"
    else if s = "slightly_negative" then "🙁"
    else if s = "negative" then "😠"
    else "❓"

/-- The values of the fixed five-class sentiment enumeration, as listed in
the BrowsePage `SENTIMENTS` constant and in the renderer switches. -/
def sentimentValues : List String :=
  ["positive", "slightly_positive", "neutral", "slightly_negative", "negative"]

/-- C5 counterexample: for the in-enumeration value `neutral`, the color
and background-color renderers return exactly the default rendering (the
one returned for `null`), so not every renderer returns a non-default
rendering on every enumerated value. -/
theorem C5_counterexample :
    getSentimentColor (some "neutral") = getSentimentColor none ∧
      getSentimentBgColor (some "neutral") = getSentimentBgColor none ∧
      getSentimentColor (some "neutral") = "text-gray-400" ∧
      getSentimentBgColor (some "neutral") = "bg-gray-400" := by
  refine ⟨?_, ?_, ?_, ?_⟩ <;> decide

/-- C5 amended: the emoji renderer returns a distinct non-default rendering
for each of the five enumerated values; the color and background renderers
return pairwise-distinct renderings on the enumeration, except that the
rendering for `neutral` coincides with the default; and every string
outside the enumeration, as well as `null`, gets the default rendering of
each renderer. -/
theorem C5_amended (s : String) (h : s ∉ sentimentValues) :
    ((sentimentValues.map (fun v => getSentimentEmoji (some v))).Nodup ∧
        ∀ v ∈ sentimentValues, getSentimentEmoji (some v) ≠ getSentimentEmoji none) ∧
      (sentimentValues.map (fun v => getSentimentColor (some v))).Nodup ∧
      (sentimentValues.map (fun v => getSentimentBgColor (some v))).Nodup ∧
      (getSentimentEmoji (some s) = getSentimentEmoji none ∧
        getSentimentColor (some s) = getSentimentColor none ∧
        getSentimentBgColor (some s) = getSentimentBgColor none) := by
  simp only [sentimentValues, List.mem_cons, List.not_mem_nil, or_false] at h
  push_neg at h
  obtain ⟨h1, h2, h3, h4, h5⟩ := h
  refine ⟨⟨by decide, by decide⟩, by decide, by decide, ?_, ?_, ?_⟩ <;>
    simp [getSentimentEmoji, getSentimentColor, getSentimentBgColor,
      h1, h2, h3, h4, h5]

/-- Witness for C5 amended at the out-of-enumeration string `mixed`. -/
theorem C5_amended_witness :
    getSentimentEmoji (some "mixed") = getSentimentEmoji none ∧
      getSentimentColor (some "mixed") = getSentimentColor none ∧
      getSentimentBgColor (some "mixed") = getSentimentBgColor none :=
  (C5_amended "mixed" (by decide)).2.2.2

/-- BrowsePage builds the sentiment argument of the posts request:
`sentiment: selectedSentiments.length < 5 ? selectedSentiments : undefined`. -/
def browseSentimentArg (selectedSentiments : List String) : Option (List String) :=
  if selectedSentiments.length < 5 then some selectedSentiments else none

/-- API client `getPosts` appends `sentiment` query parameters under the
truthiness test `if (params.sentiment?.length)`: the argument is present
and its length is nonzero. -/
def getPostsAppendsSentiment (sentiment : Option (List String)) : Bool :=
  match sentiment with
  | some l => decide (0 < l.length)
  | none => false

/-- C9: the posts request carries sentiment query parameters iff between 1
and 4 sentiment classes are selected; selecting all five or none yields an
unfiltered request. -/
theorem C9_sentiment_filter_param (selected : List String) :
    getPostsAppendsSentiment (browseSentimentArg selected) = true ↔
      1 ≤ selected.length ∧ selected.length ≤ 4 := by
  unfold browseSentimentArg getPostsAppendsSentiment
  by_cases h : selected.length < 5
  · rw [if_pos h]
    simp only [decide_eq_true_eq]
    omega
  · rw [if_neg h]
    simp only [Bool.false_eq_true, false_iff]
    omega

/-- Utility `truncate`, with a JS string embedded as its character
sequence: returns the string when its length is at most `length`, and
otherwise `str.slice(0, length)` followed by three dots. -/
def truncate (str : List Char) (length : ℕ) : List Char :=
  if str.length ≤ length then str else str.take length ++ ['.', '.', '.']

/-- C10: truncate returns short strings unchanged (hence is idempotent on
them), and on long strings returns the first n characters followed by
three dots, a string of length n + 3. -/
theorem C10_truncate_spec (s : List Char) (n : ℕ) :
    (s.length ≤ n → truncate s n = s ∧ truncate (truncate s n) n = truncate s n) ∧
      (¬ s.length ≤ n →
        truncate s n = s.take n ++ ['.', '.', '.'] ∧
          (truncate s n).length = n + 3) := by
  constructor
  · intro h
    constructor
    · simp [truncate, h]
    · simp [truncate, h]
  · intro h
    rw [truncate, if_neg h]
    refine ⟨rfl, ?_⟩
    have hn : n ≤ s.length := Nat.le_of_not_le h
    simp [List.length_append, List.length_take, Nat.min_eq_left hn]

/-- Witness for C10 on a short and a long concrete string. -/
theorem C10_truncate_spec_witness :
    (truncate ['h', 'i'] 5 = ['h', 'i'] ∧
      truncate (truncate ['h', 'i'] 5) 5 = truncate ['h', 'i'] 5) ∧
      (truncate ['a', 'b', 'c', 'd'] 2 = ['a', 'b', 'c', 'd'].take 2 ++ ['.', '.', '.'] ∧
        (truncate ['a', 'b', 'c', 'd'] 2).length = 2 + 3) :=
  ⟨(C10_truncate_spec ['h', 'i'] 5).1 (by decide),
    (C10_truncate_spec ['a', 'b', 'c', 'd'] 2).2 (by decide)⟩

/-- TagInput validation state: idle, validating, valid or invalid, with
initial state idle. -/
inductive ValidationState where
  | idle
  | validating
  | valid
  | invalid
deriving DecidableEq, Repr

/-- JS `String.prototype.trim` on a string embedded as its character
sequence: whitespace removed from both ends. -/
def trimChars (s : List Char) : List Char :=
  ((s.dropWhile Char.isWhitespace).reverse.dropWhile Char.isWhitespace).reverse

/-- JS `replace(rSlashAtStart, empty)` with the case-insensitive anchored
pattern of TagInput: removes one leading `r/` or `R/` and nothing else. -/
def stripRSlash (s : List Char) : List Char :=
  match s with
  | 'r' :: '/' :: rest => rest
  | 'R' :: '/' :: rest => rest
  | _ => s

/-- TagInput `normalizeSubreddit`: trim, then strip one leading `r/`. -/
def normalizeSubreddit (name : List Char) : List Char :=
  stripRSlash (trimChars name)

/-- TagInput `addTag`: normalizes the input, returns unchanged on empty
normalization, returns unchanged when validation is enabled and the state
is neither `valid` nor `idle`, and otherwise appends the normalized tag
when it is not already present and the list is below `maxTags`. -/
def addTag (validateSub : Bool) (validationState : ValidationState)
    (maxTags : ℕ) (tags : List (List Char)) (tag : List Char) :
    List (List Char) :=
  if normalizeSubreddit tag = [] then tags
  else if validateSub = true ∧ validationState ≠ .valid ∧ validationState ≠ .idle then
    tags
  else if normalizeSubreddit tag ∉ tags ∧ tags.length < maxTags then
    tags ++ [normalizeSubreddit tag]
  else tags

/-- TagInput `removeTag`:
`onChange(tags.filter((t) => t !== tagToRemove))`. -/
def removeTag (tags : List (List Char)) (tagToRemove : List Char) :
    List (List Char) :=
  tags.filter (fun t => t != tagToRemove)

/-- C6: with subreddit validation enabled, an add while the current input
is classified `validating` or `invalid` leaves the tag list unchanged. -/
theorem C6_validation_gates_add (validationState : ValidationState)
    (maxTags : ℕ) (tags : List (List Char)) (tag : List Char)
    (h : validationState = .validating ∨ validationState = .invalid) :
    addTag true validationState maxTags tags tag = tags := by
  rcases h with rfl | rfl <;>
  · unfold addTag
    split
    · rfl
    · rw [if_pos ⟨rfl, by decide, by decide⟩]

/-- Witness for C6: a validating input does not change the tag list. -/
theorem C6_validation_gates_add_witness :
    addTag true .validating 10 [['a']] ['b'] = [['a']] :=
  C6_validation_gates_add .validating 10 [['a']] ['b'] (Or.inl rfl)

/-- The stored-tag property asserted by the tag-list invariant claim: the
tag begins with an `r/` prefix, case-insensitively. -/
def startsWithRSlash (s : List Char) : Bool :=
  match s with
  | 'r' :: '/' :: _ => true
  | 'R' :: '/' :: _ => true
  | _ => false

/-- One user operation on the TagInput tag list. -/
inductive TagOp where
  | add (validateSub : Bool) (validationState : ValidationState) (tag : List Char)
  | remove (tag : List Char)

/-- Apply one TagInput operation to the tag list. -/
def applyTagOp (maxTags : ℕ) (tags : List (List Char)) : TagOp → List (List Char)
  | .add v st tag => addTag v st maxTags tags tag
  | .remove tag => removeTag tags tag

/-- Apply a sequence of TagInput operations, starting from a tag list. -/
def applyTagOps (maxTags : ℕ) (tags : List (List Char)) (ops : List TagOp) :
    List (List Char) :=
  ops.foldl (applyTagOp maxTags) tags

lemma addTag_eq_or_append (v : Bool) (st : ValidationState) (m : ℕ)
    (tags : List (List Char)) (tag : List Char) :
    addTag v st m tags tag = tags ∨
      addTag v st m tags tag = tags ++ [normalizeSubreddit tag] := by
  unfold addTag
  split
  · exact Or.inl rfl
  · split
    · exact Or.inl rfl
    · split
      · exact Or.inr rfl
      · exact Or.inl rfl

lemma addTag_nodup (v : Bool) (st : ValidationState) (m : ℕ)
    (tags : List (List Char)) (tag : List Char) (h : tags.Nodup) :
    (addTag v st m tags tag).Nodup := by
  unfold addTag
  split_ifs with h1 h2 h3
  · exact h
  · exact h
  · simp [List.nodup_append, h, h3.1]
  · exact h

lemma addTag_length_le (v : Bool) (st : ValidationState) (m : ℕ)
    (tags : List (List Char)) (tag : List Char) (h : tags.length ≤ m) :
    (addTag v st m tags tag).length ≤ m := by
  unfold addTag
  split_ifs with h1 h2 h3
  · exact h
  · exact h
  · have := h3.2
    simp only [List.length_append, List.length_cons, List.length_nil]
    omega
  · exact h

lemma removeTag_nodup (tags : List (List Char)) (t : List Char)
    (h : tags.Nodup) : (removeTag tags t).Nodup :=
  h.filter _

lemma removeTag_length_le (tags : List (List Char)) (t : List Char) (m : ℕ)
    (h : tags.length ≤ m) : (removeTag tags t).length ≤ m :=
  le_trans (List.length_filter_le _ _) h

lemma applyTagOps_invariant (m : ℕ) (ops : List TagOp) :
    ∀ tags : List (List Char), tags.Nodup → tags.length ≤ m →
      (applyTagOps m tags ops).Nodup ∧ (applyTagOps m tags ops).length ≤ m := by
  induction ops with
  | nil => exact fun tags h1 h2 => ⟨h1, h2⟩
  | cons op ops ih =>
    intro tags h1 h2
    have hstep : (applyTagOp m tags op).Nodup ∧ (applyTagOp m tags op).length ≤ m := by
      cases op with
      | add v st tag =>
        exact ⟨addTag_nodup v st m tags tag h1, addTag_length_le v st m tags tag h2⟩
      | remove tag =>
        exact ⟨removeTag_nodup tags tag h1, removeTag_length_le tags tag m h2⟩
    exact ih (applyTagOp m tags op) hstep.1 hstep.2

/-- C8 counterexample: adding the input `r/r/test` to an empty tag list
stores the tag `r/test`, which still begins with an `r/` prefix, because
`normalizeSubreddit` strips the prefix only once. -/
theorem C8_counterexample :
    addTag false .idle 10 []
        ['r', '/', 'r', '/', 't', 'e', 's', 't'] =
      [['r', '/', 't', 'e', 's', 't']] ∧
      startsWithRSlash ['r', '/', 't', 'e', 's', 't'] = true := by
  constructor
  · decide
  · decide

/-- C8 amended: under every sequence of add and remove operations starting
from the empty list, the tag list never contains duplicates and its length
never exceeds `maxTags`; an add of an already-present tag or an add on a
full list leaves the list unchanged; and an add either leaves the list
unchanged or appends the single-strip normalization of the input, which
can itself still begin with `r/` when the input had a doubled prefix. -/
theorem C8_tag_invariants (m : ℕ) (ops : List TagOp) (v : Bool)
    (st : ValidationState) (tags : List (List Char)) (tag : List Char) :
    ((applyTagOps m [] ops).Nodup ∧ (applyTagOps m [] ops).length ≤ m) ∧
      (normalizeSubreddit tag ∈ tags → addTag v st m tags tag = tags) ∧
      (m ≤ tags.length → addTag v st m tags tag = tags) ∧
      (addTag v st m tags tag = tags ∨
        addTag v st m tags tag = tags ++ [normalizeSubreddit tag]) := by
  refine ⟨applyTagOps_invariant m ops [] (by simp) (by simp), ?_, ?_,
    addTag_eq_or_append v st m tags tag⟩
  · intro hmem
    unfold addTag
    split_ifs with h1 h2 h3
    · rfl
    · rfl
    · exact absurd hmem h3.1
    · rfl
  · intro hlen
    unfold addTag
    split_ifs with h1 h2 h3
    · rfl
    · rfl
    · exact absurd h3.2 (by omega)
    · rfl

/-- Witness for C8 amended: a duplicate add and a full-list add, concretely. -/
theorem C8_tag_invariants_witness :
    (addTag false .idle 10 [['a']] ['a'] = [['a']]) ∧
      (addTag false .idle 1 [['a']] ['b'] = [['a']]) :=
  ⟨(C8_tag_invariants 10 [] false .idle [['a']] ['a']).2.1 (by decide),
    (C8_tag_invariants 1 [] false .idle [['a']] ['b']).2.2.1 (by decide)⟩
